import Mathlib

/-!
Shallow embedding of src/server.js of the Video-Transcripter repository.

The embedding models the upload file filter, the ffmpeg audio extraction
step, the two transcription strategies and the POST /api/transcribe
request handler, together with the temp-file cleanup in its finally
block.  External processes (ffmpeg, python3 with faster-whisper, the
whisper CLI) are modelled by an environment of oracles describing their
outcomes for one request; the filesystem is a predicate on paths.
-/

/-- Test whether the first character list stands at the start of the second. -/
def startsWithSeq : List Char → List Char → Bool
  | [], _ => true
  | _ :: _, [] => false
  | a :: as, b :: bs => a == b && startsWithSeq as bs

/-- Test whether the first character list occurs contiguously somewhere inside
the second.  This is the semantics of an unanchored JavaScript regular
expression made of plain literal alternatives, applied to one alternative. -/
def occursIn (sub : List Char) : List Char → Bool
  | [] => sub.isEmpty
  | c :: t => startsWithSeq sub (c :: t) || occursIn sub t

/-- Characters of the last path component (Node path.basename of a name
without trailing slash). -/
def afterLastSlash (l : List Char) : List Char :=
  l.foldl (fun acc c => if c == '/' then [] else acc ++ [c]) []

/-- Model of Node path.extname: the extension of the last path component,
from the last dot to the end; empty when there is no dot or when the only
dot is the leading character of the component. -/
def extname (p : String) : String :=
  let b := afterLastSlash p.data
  let r := b.reverse
  let pre := r.takeWhile (fun c => c != '.')
  if pre.length == r.length then ""
  else if (r.drop pre.length).length == 1 then ""
  else String.mk ('.' :: pre.reverse)

/-- Model of the JavaScript toLowerCase call (ASCII letters). -/
def jsToLowerCase (s : String) : String := String.mk (s.data.map Char.toLower)

/-- Model of the JavaScript slice call with argument one: drop the first
character. -/
def sliceFrom1 (s : String) : String := String.mk (s.data.drop 1)

/-- Alternatives of the regular expression on line 20 of src/server.js. -/
def allowedTypeTokens : List String := ["mp4", "mov", "avi", "webm", "mkv", "flv", "wmv"]

/-- Semantics of the test call on line 22 of src/server.js: the unanchored
regular expression matches exactly when some alternative occurs as a
substring of the tested string. -/
def regexAllowedTest (ext : String) : Bool :=
  allowedTypeTokens.any (fun tok => occursIn tok.data ext.data)

/-- Lowercased extension without its dot, as computed on line 21 of
src/server.js. -/
def extOf (originalname : String) : String :=
  sliceFrom1 (jsToLowerCase (extname originalname))

/-- Model of the multer fileFilter on lines 19 to 27 of src/server.js:
accept exactly when the regular expression matches the lowercased
extension. -/
def fileFilter (originalname : String) : Bool :=
  regexAllowedTest (extOf originalname)

/-- Outcomes of the external processes and of the unlink system calls
during one request. -/
structure Env where
  ffmpegOk : Bool
  ffmpegStderr : String
  pyRun : String → Except String String
  whisperCli : String → Except String Unit
  whisperOutFile : String → Option String
  unlinkFails : String → Bool

/-- Shell command built on line 36 of src/server.js. -/
def ffmpegCommand (videoPath audioPath : String) : String :=
  "ffmpeg -i \"" ++ videoPath ++ "\" -vn -acodec pcm_s16le -ar 16000 -ac 1 \"" ++ audioPath ++ "\""

/-- Observable outcome of one extractAudio call: the command handed to the
shell, the value propagated to the caller, and the console output. -/
structure ExtractOut where
  commandRun : String
  result : Except String Unit
  log : List String

/-- Model of extractAudio (lines 34 to 43 of src/server.js): run the ffmpeg
command; on failure log the captured stderr and propagate an error whose
message is a fixed string. -/
def extractAudio (env : Env) (videoPath audioPath : String) : ExtractOut :=
  { commandRun := ffmpegCommand videoPath audioPath
    result := if env.ffmpegOk then Except.ok () else Except.error "Failed to extract audio from video"
    log := if env.ffmpegOk then ["Audio extracted successfully"]
           else ["FFmpeg error: " ++ env.ffmpegStderr] }

/-- Model of the JavaScript trim call: remove whitespace from both ends. -/
def jsTrim (s : String) : String :=
  String.mk (((s.data.dropWhile Char.isWhitespace).reverse.dropWhile Char.isWhitespace).reverse)

/-- Fixed helper script path written on line 89 of src/server.js. -/
def scriptPath : String := "/tmp/transcribe.py"

/-- Base name of a path without its extension (Node path.basename with the
matching extension as second argument), as on line 58 of src/server.js. -/
def baseNameNoExt (p : String) : String :=
  let b := String.mk (afterLastSlash p.data)
  String.mk (b.data.take (b.data.length - (extname b).data.length))

/-- Transcript file location used on line 59 of src/server.js. -/
def transcriptPathOf (audioPath : String) : String :=
  "/tmp/" ++ baseNameNoExt audioPath ++ ".txt"

/-- Observable outcome of one transcription strategy call: the value
propagated to the caller and the temp paths written during the run. -/
structure StratOut where
  result : Except String String
  writes : List String

/-- Model of transcribeWithFasterWhisper (lines 75 to 103 of src/server.js):
write the fixed helper script, run python3 on it, return the trimmed
stdout; any failure propagates an error with the message of the cause
behind a fixed leading text. -/
def transcribeWithFasterWhisper (env : Env) (audioPath : String) : StratOut :=
  match env.pyRun audioPath with
  | Except.ok stdout => { result := Except.ok (jsTrim stdout), writes := [scriptPath] }
  | Except.error msg => { result := Except.error ("Transcription failed: " ++ msg), writes := [scriptPath] }

/-- Model of transcribeWithWhisper (lines 46 to 72 of src/server.js): run
the whisper CLI, then read, trim and delete the transcript file it
generated; each failure propagates an error with the message of the cause
behind the same fixed leading text. -/
def transcribeWithWhisper (env : Env) (audioPath : String) : StratOut :=
  match env.whisperCli audioPath with
  | Except.error msg => { result := Except.error ("Transcription failed: " ++ msg), writes := [] }
  | Except.ok _ =>
    match env.whisperOutFile audioPath with
    | some content =>
        { result := Except.ok (jsTrim content), writes := [transcriptPathOf audioPath] }
    | none =>
        { result := Except.error ("Transcription failed: Transcript file not generated"), writes := [] }

/-- Delete a path when it exists; a failing unlink call raises, reported in
the second component. -/
def unlinkIfExists (env : Env) (p : String) (fs : String → Bool) : (String → Bool) × Bool :=
  if fs p then
    if env.unlinkFails p then (fs, true)
    else ((fun q => if q == p then false else fs q), false)
  else (fs, false)

/-- Model of the finally block on lines 146 to 154 of src/server.js: delete
the video file, then the audio file, each only when it exists; an error
raised by the first unlink call aborts the block before the second. -/
def cleanup (env : Env) (videoPath audioPath : String) (fs : String → Bool) :
    (String → Bool) × Bool :=
  let r1 := unlinkIfExists env videoPath fs
  if r1.2 then r1
  else unlinkIfExists env audioPath r1.1

/-- JSON body of a response from the transcription endpoint. -/
inductive Body
  | transcript (text : String)
  | error (message : String)
deriving DecidableEq

/-- Response sent to the client: HTTP status and JSON body. -/
structure Response where
  status : Nat
  body : Body
deriving DecidableEq

/-- External pipeline invocations performed while handling one request. -/
inductive Call
  | extract (videoPath audioPath : String)
  | fasterWhisper (audioPath : String)
  | whisperFallback (audioPath : String)
deriving DecidableEq

/-- Observable outcome of one request: the response, the filesystem after
the request, whether an exception escaped the handler after the response
was sent, the pipeline invocations, and the temp paths written by the
transcription strategies. -/
structure HandlerResult where
  response : Response
  fsAfter : String → Bool
  escalated : Bool
  calls : List Call
  tmpWrites : List String

/-- Model of the POST /api/transcribe handler body (lines 106 to 155 of
src/server.js) after multer ran: given the stored upload path when a file
arrived, run extraction, then the primary strategy with fallback, send
the response, and run the cleanup block. -/
def handler (env : Env) (reqFile : Option String) (fs0 : String → Bool) : HandlerResult :=
  match reqFile with
  | none =>
      { response := ⟨400, Body.error "No video file uploaded"⟩
        fsAfter := fs0, escalated := false, calls := [], tmpWrites := [] }
  | some videoPath =>
      let audioPath := videoPath ++ ".wav"
      match (extractAudio env videoPath audioPath).result with
      | Except.error msg =>
          let c := cleanup env videoPath audioPath fs0
          { response := ⟨500, Body.error msg⟩
            fsAfter := c.1, escalated := c.2
            calls := [Call.extract videoPath audioPath], tmpWrites := [] }
      | Except.ok _ =>
          let fs1 : String → Bool := fun p => if p == audioPath then true else fs0 p
          let fw := transcribeWithFasterWhisper env audioPath
          match fw.result with
          | Except.ok t =>
              let c := cleanup env videoPath audioPath fs1
              { response := ⟨200, Body.transcript t⟩
                fsAfter := c.1, escalated := c.2
                calls := [Call.extract videoPath audioPath, Call.fasterWhisper audioPath]
                tmpWrites := fw.writes }
          | Except.error _ =>
              let wf := transcribeWithWhisper env audioPath
              let c := cleanup env videoPath audioPath fs1
              match wf.result with
              | Except.ok t =>
                  { response := ⟨200, Body.transcript t⟩
                    fsAfter := c.1, escalated := c.2
                    calls := [Call.extract videoPath audioPath, Call.fasterWhisper audioPath,
                              Call.whisperFallback audioPath]
                    tmpWrites := fw.writes ++ wf.writes }
              | Except.error msg =>
                  { response := ⟨500, Body.error msg⟩
                    fsAfter := c.1, escalated := c.2
                    calls := [Call.extract videoPath audioPath, Call.fasterWhisper audioPath,
                              Call.whisperFallback audioPath]
                    tmpWrites := fw.writes ++ wf.writes }

/-- Model of the full route POST /api/transcribe including the multer
fileFilter stage: a rejected file never reaches the handler body and
yields an error response from the framework carrying the filter message;
an accepted file is stored at the generated path before the handler
runs. -/
def apiTranscribe (env : Env) (uploadName : Option String) (storedPath : String)
    (fs0 : String → Bool) : HandlerResult :=
  match uploadName with
  | none => handler env none fs0
  | some nm =>
      if fileFilter nm then
        handler env (some storedPath) (fun p => if p == storedPath then true else fs0 p)
      else
        { response := ⟨500, Body.error "Invalid file type. Only video files are allowed."⟩
          fsAfter := fs0, escalated := false, calls := [], tmpWrites := [] }

/-- Filesystem with no files. -/
def fsEmpty : String → Bool := fun _ => false

/-- Test that a character list has no whitespace at either end. -/
def noEdgeWsL (l : List Char) : Bool :=
  (match l.head? with | some c => !c.isWhitespace | none => true) &&
  (match l.getLast? with | some c => !c.isWhitespace | none => true)

/-- Test that a string has no leading and no trailing whitespace. -/
def noEdgeWs (s : String) : Bool := noEdgeWsL s.data

theorem startsWithSeq_append_self (sub r : List Char) :
    startsWithSeq sub (sub ++ r) = true := by
  induction sub with
  | nil => rfl
  | cons a as ih => simp [startsWithSeq, ih]

theorem startsWithSeq_extend {sub l : List Char} (r : List Char)
    (h : startsWithSeq sub l = true) : startsWithSeq sub (l ++ r) = true := by
  induction sub generalizing l with
  | nil => rfl
  | cons a as ih =>
    cases l with
    | nil => simp [startsWithSeq] at h
    | cons b bs =>
      simp only [startsWithSeq, Bool.and_eq_true] at h
      simp [startsWithSeq, h.1, ih h.2]

theorem occursIn_nil_sub (l : List Char) : occursIn [] l = true := by
  cases l <;> simp [occursIn, startsWithSeq, List.isEmpty]

theorem occursIn_cons_of {sub t : List Char} (c : Char)
    (h : occursIn sub t = true) : occursIn sub (c :: t) = true := by
  simp [occursIn, h]

theorem occursIn_self_append (sub r : List Char) :
    occursIn sub (sub ++ r) = true := by
  cases sub with
  | nil => exact occursIn_nil_sub r
  | cons a as =>
    simp [occursIn, startsWithSeq, startsWithSeq_append_self]

theorem occursIn_append_right {sub l2 : List Char} (l1 : List Char)
    (h : occursIn sub l2 = true) : occursIn sub (l1 ++ l2) = true := by
  induction l1 with
  | nil => simpa using h
  | cons c t ih => exact occursIn_cons_of c ih

theorem occursIn_append_left {sub l1 : List Char} (l2 : List Char)
    (h : occursIn sub l1 = true) : occursIn sub (l1 ++ l2) = true := by
  induction l1 with
  | nil =>
    have hsub : sub = [] := by
      cases sub with
      | nil => rfl
      | cons a as => simp [occursIn, List.isEmpty] at h
    subst hsub
    exact occursIn_nil_sub l2
  | cons c t ih =>
    simp only [occursIn, Bool.or_eq_true] at h
    rcases h with h | h
    · have := startsWithSeq_extend (l := c :: t) l2 h
      simpa [occursIn] using Or.inl this
    · exact occursIn_cons_of c (ih h)

theorem cleanup_of_gone (env : Env) (v a : String) (fs : String → Bool)
    (hv : fs v = false) (ha : fs a = false) :
    cleanup env v a fs = (fs, false) := by
  unfold cleanup unlinkIfExists
  simp [hv, ha]

theorem cleanup_clears (env : Env) (v a : String) (fs : String → Bool)
    (h1 : env.unlinkFails v = false) (h2 : env.unlinkFails a = false) :
    (cleanup env v a fs).1 v = false ∧ (cleanup env v a fs).1 a = false ∧
      (cleanup env v a fs).2 = false := by
  unfold cleanup unlinkIfExists
  by_cases hv : fs v = true
  · simp only [hv, if_true, h1, Bool.false_eq_true, if_false]
    by_cases hva : a = v
    · subst hva
      simp [h2]
    · by_cases ha : fs a = true
      · simp [hva, ha, h2, beq_iff_eq]
      · simp [hva, ha, beq_iff_eq]
  · simp only [Bool.not_eq_true] at hv
    simp only [hv, Bool.false_eq_true, if_false]
    by_cases ha : fs a = true
    · simp [ha, h2, beq_iff_eq, hv]
    · simp only [Bool.not_eq_true] at ha
      simp [ha, hv]

theorem dropWhile_head?_not (p : Char → Bool) :
    ∀ (l : List Char) {c : Char}, (List.dropWhile p l).head? = some c → p c = false := by
  intro l
  induction l with
  | nil => intro c h; simp [List.dropWhile] at h
  | cons a t ih =>
    intro c h
    by_cases ha : p a = true
    · exact ih (by simpa [List.dropWhile_cons, ha] using h)
    · simp only [Bool.not_eq_true] at ha
      rw [List.dropWhile_cons, ha] at h
      simp only [Bool.false_eq_true, if_false, List.head?_cons, Option.some.injEq] at h
      rw [← h]
      exact ha

theorem getLast?_dropWhile (p : Char → Bool) :
    ∀ l : List Char, List.dropWhile p l ≠ [] →
      (List.dropWhile p l).getLast? = l.getLast? := by
  intro l
  induction l with
  | nil => intro h; simp [List.dropWhile] at h
  | cons a t ih =>
    intro h
    by_cases ha : p a = true
    · rw [List.dropWhile_cons, if_pos ha] at h ⊢
      rw [ih h]
      cases t with
      | nil => simp [List.dropWhile] at h
      | cons b t2 => simp
    · simp only [Bool.not_eq_true] at ha
      rw [List.dropWhile_cons, ha]
      simp

theorem noEdgeWsL_trim (l : List Char) :
    noEdgeWsL (((l.dropWhile Char.isWhitespace).reverse.dropWhile Char.isWhitespace).reverse)
      = true := by
  set l1 := l.dropWhile Char.isWhitespace with hl1
  set l2 := l1.reverse.dropWhile Char.isWhitespace with hl2
  unfold noEdgeWsL
  rw [List.head?_reverse, List.getLast?_reverse]
  cases hc : l2.head? with
  | none =>
    have h2 : l2 = [] := by
      rw [List.head?_eq_none_iff] at hc
      exact hc
    simp [h2]
  | some c =>
    have hcw : Char.isWhitespace c = false := by
      apply dropWhile_head?_not Char.isWhitespace l1.reverse
      rw [← hl2]; exact hc
    have hne : l2 ≠ [] := by
      intro h; rw [h] at hc; simp at hc
    have hgl : l2.getLast? = l1.reverse.getLast? := by
      rw [hl2] at hne ⊢
      exact getLast?_dropWhile Char.isWhitespace l1.reverse hne
    rw [hgl, List.getLast?_reverse]
    cases hd : l1.head? with
    | none =>
      exfalso
      apply hne
      have h1 : l1 = [] := by
        rw [List.head?_eq_none_iff] at hd
        exact hd
      rw [hl2, h1]
      simp [List.dropWhile]
    | some d =>
      have hdw : Char.isWhitespace d = false := by
        apply dropWhile_head?_not Char.isWhitespace l
        rw [← hl1]; exact hd
      simp [hcw, hdw]

theorem noEdgeWs_jsTrim (s : String) : noEdgeWs (jsTrim s) = true :=
  noEdgeWsL_trim s.data

theorem handler_extract_fail (env : Env) (v : String) (fs0 : String → Bool)
    (hff : env.ffmpegOk = false) :
    handler env (some v) fs0 =
      { response := ⟨500, Body.error "Failed to extract audio from video"⟩
        fsAfter := (cleanup env v (v ++ ".wav") fs0).1
        escalated := (cleanup env v (v ++ ".wav") fs0).2
        calls := [Call.extract v (v ++ ".wav")], tmpWrites := [] } := by
  unfold handler extractAudio
  simp [hff]

theorem handler_fw_ok (env : Env) (v : String) (fs0 : String → Bool) (t : String)
    (hff : env.ffmpegOk = true)
    (hfw : (transcribeWithFasterWhisper env (v ++ ".wav")).result = Except.ok t) :
    handler env (some v) fs0 =
      { response := ⟨200, Body.transcript t⟩
        fsAfter := (cleanup env v (v ++ ".wav")
          (fun p => if p == v ++ ".wav" then true else fs0 p)).1
        escalated := (cleanup env v (v ++ ".wav")
          (fun p => if p == v ++ ".wav" then true else fs0 p)).2
        calls := [Call.extract v (v ++ ".wav"), Call.fasterWhisper (v ++ ".wav")]
        tmpWrites := (transcribeWithFasterWhisper env (v ++ ".wav")).writes } := by
  unfold handler extractAudio
  simp [hff, hfw]

theorem handler_fw_fail_w_ok (env : Env) (v : String) (fs0 : String → Bool) (e t : String)
    (hff : env.ffmpegOk = true)
    (hfw : (transcribeWithFasterWhisper env (v ++ ".wav")).result = Except.error e)
    (hw : (transcribeWithWhisper env (v ++ ".wav")).result = Except.ok t) :
    handler env (some v) fs0 =
      { response := ⟨200, Body.transcript t⟩
        fsAfter := (cleanup env v (v ++ ".wav")
          (fun p => if p == v ++ ".wav" then true else fs0 p)).1
        escalated := (cleanup env v (v ++ ".wav")
          (fun p => if p == v ++ ".wav" then true else fs0 p)).2
        calls := [Call.extract v (v ++ ".wav"), Call.fasterWhisper (v ++ ".wav"),
                  Call.whisperFallback (v ++ ".wav")]
        tmpWrites := (transcribeWithFasterWhisper env (v ++ ".wav")).writes ++
          (transcribeWithWhisper env (v ++ ".wav")).writes } := by
  unfold handler extractAudio
  simp [hff, hfw, hw]

theorem handler_fw_fail_w_fail (env : Env) (v : String) (fs0 : String → Bool) (e m : String)
    (hff : env.ffmpegOk = true)
    (hfw : (transcribeWithFasterWhisper env (v ++ ".wav")).result = Except.error e)
    (hw : (transcribeWithWhisper env (v ++ ".wav")).result = Except.error m) :
    handler env (some v) fs0 =
      { response := ⟨500, Body.error m⟩
        fsAfter := (cleanup env v (v ++ ".wav")
          (fun p => if p == v ++ ".wav" then true else fs0 p)).1
        escalated := (cleanup env v (v ++ ".wav")
          (fun p => if p == v ++ ".wav" then true else fs0 p)).2
        calls := [Call.extract v (v ++ ".wav"), Call.fasterWhisper (v ++ ".wav"),
                  Call.whisperFallback (v ++ ".wav")]
        tmpWrites := (transcribeWithFasterWhisper env (v ++ ".wav")).writes ++
          (transcribeWithWhisper env (v ++ ".wav")).writes } := by
  unfold handler extractAudio
  simp [hff, hfw, hw]

theorem handler_clears (env : Env) (v : String) (fs0 : String → Bool)
    (h1 : env.unlinkFails v = false) (h2 : env.unlinkFails (v ++ ".wav") = false) :
    (handler env (some v) fs0).fsAfter v = false ∧
    (handler env (some v) fs0).fsAfter (v ++ ".wav") = false ∧
    (handler env (some v) fs0).escalated = false := by
  have key : ∀ fs : String → Bool,
      (cleanup env v (v ++ ".wav") fs).1 v = false ∧
      (cleanup env v (v ++ ".wav") fs).1 (v ++ ".wav") = false ∧
      (cleanup env v (v ++ ".wav") fs).2 = false :=
    fun fs => cleanup_clears env v (v ++ ".wav") fs h1 h2
  by_cases hff : env.ffmpegOk = true
  · cases hfw : (transcribeWithFasterWhisper env (v ++ ".wav")).result with
    | ok t =>
      rw [handler_fw_ok env v fs0 t hff hfw]
      exact key _
    | error e =>
      cases hw : (transcribeWithWhisper env (v ++ ".wav")).result with
      | ok t =>
        rw [handler_fw_fail_w_ok env v fs0 e t hff hfw hw]
        exact key _
      | error m =>
        rw [handler_fw_fail_w_fail env v fs0 e m hff hfw hw]
        exact key _
  · simp only [Bool.not_eq_true] at hff
    rw [handler_extract_fail env v fs0 hff]
    exact key _

theorem fw_ok_trimmed (env : Env) (a t : String)
    (h : (transcribeWithFasterWhisper env a).result = Except.ok t) :
    noEdgeWs t = true := by
  unfold transcribeWithFasterWhisper at h
  cases hp : env.pyRun a with
  | ok s =>
    rw [hp] at h
    simp only [Except.ok.injEq] at h
    rw [← h]
    exact noEdgeWs_jsTrim s
  | error m => rw [hp] at h; simp at h

theorem w_ok_trimmed (env : Env) (a t : String)
    (h : (transcribeWithWhisper env a).result = Except.ok t) :
    noEdgeWs t = true := by
  unfold transcribeWithWhisper at h
  cases hc : env.whisperCli a with
  | error m => rw [hc] at h; simp at h
  | ok u =>
    rw [hc] at h
    cases hf : env.whisperOutFile a with
    | some content =>
      rw [hf] at h
      simp only [Except.ok.injEq] at h
      rw [← h]
      exact noEdgeWs_jsTrim content
    | none => rw [hf] at h; simp at h

/-- Environment of a fully successful request: ffmpeg succeeds and the
primary strategy prints a transcript surrounded by whitespace. -/
def envHappy : Env :=
  { ffmpegOk := true, ffmpegStderr := ""
    pyRun := fun _ => Except.ok " hello world "
    whisperCli := fun _ => Except.ok ()
    whisperOutFile := fun _ => some "unused"
    unlinkFails := fun _ => false }

/-- Environment where the primary strategy fails and the fallback succeeds. -/
def envPrimaryFails : Env :=
  { ffmpegOk := true, ffmpegStderr := ""
    pyRun := fun _ => Except.error "faster_whisper module not found"
    whisperCli := fun _ => Except.ok ()
    whisperOutFile := fun _ => some " fallback text "
    unlinkFails := fun _ => false }

/-- Environment where ffmpeg fails, with the diagnostic text boom on its
stderr. -/
def envBoom : Env :=
  { ffmpegOk := false, ffmpegStderr := "boom"
    pyRun := fun _ => Except.error "unused"
    whisperCli := fun _ => Except.error "unused"
    whisperOutFile := fun _ => none
    unlinkFails := fun _ => false }

/-- Environment where the unlink call on one stored video path fails. -/
def envUnlinkFails : Env :=
  { ffmpegOk := true, ffmpegStderr := ""
    pyRun := fun _ => Except.ok "hi"
    whisperCli := fun _ => Except.ok ()
    whisperOutFile := fun _ => some "hi"
    unlinkFails := fun p => p == "uploads/u6" }

/-- C1: for every upload accepted by the POST /api/transcribe route, the
stored video file and the derived audio file are absent from storage when the
request completes; the environment is arbitrary, so this covers the success,
extraction-failure and transcription-failure exit paths alike.  The unlink
system calls themselves are assumed to succeed. -/
theorem c1_cleanup_invariant (env : Env) (nm storedPath : String) (fs0 : String → Bool)
    (hacc : fileFilter nm = true)
    (h1 : env.unlinkFails storedPath = false)
    (h2 : env.unlinkFails (storedPath ++ ".wav") = false) :
    (apiTranscribe env (some nm) storedPath fs0).fsAfter storedPath = false ∧
    (apiTranscribe env (some nm) storedPath fs0).fsAfter (storedPath ++ ".wav") = false := by
  have h := handler_clears env storedPath
      (fun p => if p == storedPath then true else fs0 p) h1 h2
  simp only [apiTranscribe, hacc, if_true]
  exact ⟨h.1, h.2.1⟩

/-- Witness for c1_cleanup_invariant at a concrete successful request. -/
theorem c1_cleanup_invariant_witness :
    fileFilter "clip.mov" = true ∧
    envHappy.unlinkFails "uploads/v1" = false ∧
    (apiTranscribe envHappy (some "clip.mov") "uploads/v1" fsEmpty).fsAfter "uploads/v1" = false ∧
    (apiTranscribe envHappy (some "clip.mov") "uploads/v1" fsEmpty).fsAfter
      ("uploads/v1" ++ ".wav") = false := by
  have h := c1_cleanup_invariant envHappy "clip.mov" "uploads/v1" fsEmpty (by decide) rfl rfl
  exact ⟨by decide, rfl, h.1, h.2⟩

/-- C2: when extraction succeeded and the primary strategy (faster-whisper)
raises an error, the call trace shows the primary attempt first and then
exactly one fallback attempt (whisper CLI) on the same audio path, and
nothing else; when the fallback succeeds, its text is the transcript in the
response. -/
theorem c2_fallback_policy (env : Env) (v : String) (fs0 : String → Bool) (e : String)
    (hff : env.ffmpegOk = true)
    (hfw : (transcribeWithFasterWhisper env (v ++ ".wav")).result = Except.error e) :
    (handler env (some v) fs0).calls =
      [Call.extract v (v ++ ".wav"), Call.fasterWhisper (v ++ ".wav"),
       Call.whisperFallback (v ++ ".wav")] ∧
    (∀ t, (transcribeWithWhisper env (v ++ ".wav")).result = Except.ok t →
      (handler env (some v) fs0).response = ⟨200, Body.transcript t⟩) := by
  cases hw : (transcribeWithWhisper env (v ++ ".wav")).result with
  | ok t =>
    rw [handler_fw_fail_w_ok env v fs0 e t hff hfw hw]
    refine ⟨rfl, fun t2 ht2 => ?_⟩
    simp only [Except.ok.injEq] at ht2
    rw [ht2]
  | error m =>
    rw [handler_fw_fail_w_fail env v fs0 e m hff hfw hw]
    refine ⟨rfl, fun t2 ht2 => ?_⟩
    simp at ht2

/-- Witness for c2_fallback_policy at a concrete request where the primary
strategy is unavailable and the fallback returns text. -/
theorem c2_fallback_policy_witness :
    (handler envPrimaryFails (some "uploads/v2") fsEmpty).calls =
      [Call.extract "uploads/v2" ("uploads/v2" ++ ".wav"),
       Call.fasterWhisper ("uploads/v2" ++ ".wav"),
       Call.whisperFallback ("uploads/v2" ++ ".wav")] ∧
    (handler envPrimaryFails (some "uploads/v2") fsEmpty).response =
      ⟨200, Body.transcript "fallback text"⟩ := by
  have h := c2_fallback_policy envPrimaryFails "uploads/v2" fsEmpty
      "Transcription failed: faster_whisper module not found" rfl rfl
  exact ⟨h.1, h.2 "fallback text" rfl⟩

/-- Specification-side acceptance predicate following the text of claim C3:
accept exactly when the lowercased extension is a member of the fixed set of
seven container extensions. -/
def acceptedBySetSpec (name : String) : Bool :=
  allowedTypeTokens.contains (extOf name)

/-- C3 counterexample: the filename video.movie carries the extension movie,
which is outside the fixed set, yet the filter accepts it, because the
unanchored regular expression matches the substring mov. -/
theorem c3_set_membership_refuted :
    fileFilter "video.movie" = true ∧ acceptedBySetSpec "video.movie" = false := by
  constructor
  · decide
  · decide

/-- C3 amended: the filter accepts a file exactly when its lowercased
extension (without the dot) contains one of the seven tokens as a substring;
membership in the fixed set is sufficient but not necessary. -/
theorem c3_filter_substring_semantics (name : String) :
    fileFilter name = true ↔
      ∃ tok ∈ allowedTypeTokens, occursIn tok.data (extOf name).data = true := by
  unfold fileFilter regexAllowedTest
  simp [List.any_eq_true]

/-- C4 counterexample: the upload video.movie has an extension outside the
fixed set, hence a disallowed extension in the sense of the claim, yet the
request is not rejected: the extractor and the primary strategy are
invoked. -/
theorem c4_disallowed_invokes_extractor :
    acceptedBySetSpec "video.movie" = false ∧
    (apiTranscribe envHappy (some "video.movie") "uploads/u4" fsEmpty).calls =
      [Call.extract "uploads/u4" ("uploads/u4" ++ ".wav"),
       Call.fasterWhisper ("uploads/u4" ++ ".wav")] := by
  constructor
  · decide
  · rfl

/-- C4 amended: for every upload the file filter rejects (its lowercased
extension contains none of the seven tokens, in particular when the
extension is missing), the endpoint answers with the validation error and
invokes neither the extractor nor either transcription strategy. -/
theorem c4_rejected_upload_no_invocation (env : Env) (nm storedPath : String)
    (fs0 : String → Bool) (hrej : fileFilter nm = false) :
    (apiTranscribe env (some nm) storedPath fs0).calls = [] ∧
    (apiTranscribe env (some nm) storedPath fs0).tmpWrites = [] ∧
    (apiTranscribe env (some nm) storedPath fs0).response =
      ⟨500, Body.error "Invalid file type. Only video files are allowed."⟩ := by
  simp [apiTranscribe, hrej]

/-- Witness for c4_rejected_upload_no_invocation at a concrete rejected
upload. -/
theorem c4_rejected_upload_no_invocation_witness :
    fileFilter "notes.txt" = false ∧
    (apiTranscribe envHappy (some "notes.txt") "uploads/u4b" fsEmpty).calls = [] := by
  have h := c4_rejected_upload_no_invocation envHappy "notes.txt" "uploads/u4b" fsEmpty (by decide)
  exact ⟨by decide, h.1⟩

/-- C5 counterexample: with the decoder failing and the diagnostic text boom
on its stderr, the error propagated out of extractAudio carries only a fixed
message; the diagnostic text is logged, and it does not occur inside the
propagated error, so it is not attached to it. -/
theorem c5_stderr_not_attached :
    (extractAudio envBoom "uploads/u5" "uploads/u5.wav").result =
      Except.error "Failed to extract audio from video" ∧
    (extractAudio envBoom "uploads/u5" "uploads/u5.wav").log = ["FFmpeg error: boom"] ∧
    occursIn "boom".data "Failed to extract audio from video".data = false := by
  refine ⟨rfl, rfl, by decide⟩

/-- C5 amended: when the decoder process fails (non-zero exit or not found),
extraction fails with an error whose message is the fixed string, and the
captured stderr is logged verbatim (not parsed); the stderr is not attached
to the propagated error. -/
theorem c5_extraction_error_fixed_message (env : Env) (v a : String)
    (hff : env.ffmpegOk = false) :
    (extractAudio env v a).result = Except.error "Failed to extract audio from video" ∧
    (extractAudio env v a).log = ["FFmpeg error: " ++ env.ffmpegStderr] := by
  unfold extractAudio
  simp [hff]

/-- Witness for c5_extraction_error_fixed_message at a concrete failing
decoder run. -/
theorem c5_extraction_error_fixed_message_witness :
    envBoom.ffmpegOk = false ∧
    (extractAudio envBoom "uploads/w5" "uploads/w5.wav").result =
      Except.error "Failed to extract audio from video" :=
  ⟨rfl, (c5_extraction_error_fixed_message envBoom "uploads/w5" "uploads/w5.wav" rfl).1⟩

/-- C6 counterexample: when the unlink call on the stored video file throws,
the error is not caught by the finally block: it escapes the handler, and
the remaining deletion is skipped, so the file is still present.  This
contradicts the claim that deletion errors are logged and never
escalated. -/
theorem c6_unlink_error_escalates :
    (handler envUnlinkFails (some "uploads/u6") (fun p => p == "uploads/u6")).escalated = true ∧
    (handler envUnlinkFails (some "uploads/u6") (fun p => p == "uploads/u6")).fsAfter
      "uploads/u6" = true := by
  constructor
  · rfl
  · rfl

/-- C6 amended: cleanup is unconditional and idempotent in the sense that,
whenever the unlink calls succeed, both temp files are deleted if present on
every exit path, nothing escapes the handler, and running the cleanup block
again on the resulting filesystem changes nothing and raises nothing;
however a deletion error is neither caught nor logged: it escapes the
handler. -/
theorem c6_cleanup_unconditional_idempotent (env : Env) (v : String) (fs0 : String → Bool)
    (h1 : env.unlinkFails v = false) (h2 : env.unlinkFails (v ++ ".wav") = false) :
    (handler env (some v) fs0).fsAfter v = false ∧
    (handler env (some v) fs0).fsAfter (v ++ ".wav") = false ∧
    (handler env (some v) fs0).escalated = false ∧
    cleanup env v (v ++ ".wav") (handler env (some v) fs0).fsAfter =
      ((handler env (some v) fs0).fsAfter, false) := by
  obtain ⟨a1, a2, a3⟩ := handler_clears env v fs0 h1 h2
  exact ⟨a1, a2, a3, cleanup_of_gone env v (v ++ ".wav") _ a1 a2⟩

/-- Witness for c6_cleanup_unconditional_idempotent at a concrete request
whose unlink calls succeed. -/
theorem c6_cleanup_unconditional_idempotent_witness :
    envHappy.unlinkFails "uploads/u6b" = false ∧
    (handler envHappy (some "uploads/u6b") fsEmpty).escalated = false := by
  have h := c6_cleanup_unconditional_idempotent envHappy "uploads/u6b" fsEmpty rfl rfl
  exact ⟨rfl, h.2.2.1⟩

/-- Specification-side predicate for claim C7: following the documented
command line of the external decoder (ffmpeg), an existing output file is
replaced without prompting exactly when the overwrite flag -y appears in
the invocation; with the flag absent the decoder prompts and, without an
interactive answer, does not replace the existing file. -/
def requestsOverwrite (cmd : String) : Bool := occursIn "-y".data cmd.data

/-- C7 counterexample: the command handed to the shell for a concrete
extraction carries no overwrite flag, so a file already present at the
destination path is not fully overwritten, contrary to the claim. -/
theorem c7_no_overwrite_flag :
    requestsOverwrite ((extractAudio envHappy "uploads/u7" "uploads/u7.wav").commandRun)
      = false := by
  decide

/-- C7 amended: for every source and destination path the extractor invokes
the decoder with flags requesting mono (-ac 1), 16-bit linear PCM
(pcm_s16le), 16kHz (-ar 16000) output at the destination, and the fixed part
of the command carries no overwrite flag, so an existing destination file is
not silently overwritten. -/
theorem c7_command_flags (env : Env) (v a : String) :
    (extractAudio env v a).commandRun =
      "ffmpeg -i \"" ++ v ++ "\" -vn -acodec pcm_s16le -ar 16000 -ac 1 \"" ++ a ++ "\"" ∧
    occursIn "-acodec pcm_s16le".data ((extractAudio env v a).commandRun).data = true ∧
    occursIn "-ar 16000".data ((extractAudio env v a).commandRun).data = true ∧
    occursIn "-ac 1".data ((extractAudio env v a).commandRun).data = true ∧
    requestsOverwrite (ffmpegCommand "" "") = false := by
  refine ⟨rfl, ?_, ?_, ?_, by decide⟩
  · show occursIn _ (ffmpegCommand v a).data = true
    unfold ffmpegCommand
    simp only [String.data_append]
    exact occursIn_append_left _ (occursIn_append_left _ (occursIn_append_right _ (by decide)))
  · show occursIn _ (ffmpegCommand v a).data = true
    unfold ffmpegCommand
    simp only [String.data_append]
    exact occursIn_append_left _ (occursIn_append_left _ (occursIn_append_right _ (by decide)))
  · show occursIn _ (ffmpegCommand v a).data = true
    unfold ffmpegCommand
    simp only [String.data_append]
    exact occursIn_append_left _ (occursIn_append_left _ (occursIn_append_right _ (by decide)))

/-- C8: the faster-whisper strategy writes its helper script at one fixed
path for every request, so two requests with distinct generated upload names
both write the same temporary file path, violating the per-request
uniqueness of written temp paths. -/
theorem c8_script_path_shared :
    ("uploads/r1" : String) ≠ "uploads/r2" ∧
    scriptPath ∈ (handler envHappy (some "uploads/r1") fsEmpty).tmpWrites ∧
    scriptPath ∈ (handler envHappy (some "uploads/r2") fsEmpty).tmpWrites := by
  refine ⟨by decide, by decide, by decide⟩

/-- C9: for an accepted upload whose extraction fails, the response has
status 500 with the fixed error body, and afterwards neither the stored
video nor the derived audio file exists, and the request wrote no
transcription temp files; the unlink calls are assumed to succeed. -/
theorem c9_extraction_failure_response (env : Env) (nm storedPath : String)
    (fs0 : String → Bool)
    (hacc : fileFilter nm = true) (hff : env.ffmpegOk = false)
    (h1 : env.unlinkFails storedPath = false)
    (h2 : env.unlinkFails (storedPath ++ ".wav") = false) :
    (apiTranscribe env (some nm) storedPath fs0).response =
      ⟨500, Body.error "Failed to extract audio from video"⟩ ∧
    (apiTranscribe env (some nm) storedPath fs0).fsAfter storedPath = false ∧
    (apiTranscribe env (some nm) storedPath fs0).fsAfter (storedPath ++ ".wav") = false ∧
    (apiTranscribe env (some nm) storedPath fs0).tmpWrites = [] := by
  simp only [apiTranscribe, hacc, if_true]
  rw [handler_extract_fail env storedPath _ hff]
  refine ⟨rfl, ?_, ?_, rfl⟩
  · exact (cleanup_clears env storedPath (storedPath ++ ".wav") _ h1 h2).1
  · exact (cleanup_clears env storedPath (storedPath ++ ".wav") _ h1 h2).2.1

/-- Witness for c9_extraction_failure_response at the sample scenario of the
specification: a file named sample.mp4 whose contents the decoder cannot
demux. -/
theorem c9_extraction_failure_response_witness :
    fileFilter "sample.mp4" = true ∧ envBoom.ffmpegOk = false ∧
    (apiTranscribe envBoom (some "sample.mp4") "uploads/v9" fsEmpty).response =
      ⟨500, Body.error "Failed to extract audio from video"⟩ := by
  have h := c9_extraction_failure_response envBoom "sample.mp4" "uploads/v9" fsEmpty
      (by decide) rfl rfl rfl
  exact ⟨by decide, rfl, h.1⟩

/-- C10: whichever strategy produced it, a transcript returned by the
endpoint has no leading and no trailing whitespace, because both strategies
trim their raw output before returning it. -/
theorem c10_transcript_trimmed (env : Env) (un : Option String) (sp : String)
    (fs0 : String → Bool) (t : String)
    (h : (apiTranscribe env un sp fs0).response.body = Body.transcript t) :
    noEdgeWs t = true := by
  cases un with
  | none => simp [apiTranscribe, handler] at h
  | some nm =>
    by_cases hacc : fileFilter nm = true
    · simp only [apiTranscribe, hacc, if_true] at h
      by_cases hff : env.ffmpegOk = true
      · cases hfw : (transcribeWithFasterWhisper env (sp ++ ".wav")).result with
        | ok t1 =>
          rw [handler_fw_ok env sp _ t1 hff hfw] at h
          simp only [Body.transcript.injEq] at h
          rw [← h]
          exact fw_ok_trimmed env _ t1 hfw
        | error e =>
          cases hw : (transcribeWithWhisper env (sp ++ ".wav")).result with
          | ok t1 =>
            rw [handler_fw_fail_w_ok env sp _ e t1 hff hfw hw] at h
            simp only [Body.transcript.injEq] at h
            rw [← h]
            exact w_ok_trimmed env _ t1 hw
          | error m =>
            rw [handler_fw_fail_w_fail env sp _ e m hff hfw hw] at h
            simp at h
      · simp only [Bool.not_eq_true] at hff
        rw [handler_extract_fail env sp _ hff] at h
        simp at h
    · simp only [Bool.not_eq_true] at hacc
      simp [apiTranscribe, hacc] at h

/-- Witness for c10_transcript_trimmed at a concrete successful request whose
raw engine output carries surrounding whitespace. -/
theorem c10_transcript_trimmed_witness :
    (apiTranscribe envHappy (some "clip2.mp4") "uploads/v10" fsEmpty).response.body =
      Body.transcript "hello world" ∧ noEdgeWs "hello world" = true :=
  ⟨by decide,
   c10_transcript_trimmed envHappy (some "clip2.mp4") "uploads/v10" fsEmpty "hello world"
     (by decide)⟩

example : fileFilter "video.mp4" = true := by decide
example : fileFilter "Video.MOV" = true := by decide
example : fileFilter "video.movie" = true := by decide
example : fileFilter "file.txt" = false := by decide
example : fileFilter "file" = false := by decide
example : extname "uploads/abc.wav" = ".wav" := by decide
example : baseNameNoExt "uploads/abc.wav" = "abc" := by decide
example : transcriptPathOf "uploads/abc.wav" = "/tmp/abc.txt" := by decide
example : jsTrim "  hi there " = "hi there" := by decide
